import Mathlib

/-!
Verification of the `Triuman/gadget` WebGL texture-sampler core.

The development embeds, as executable Lean definitions:
- the texture enumerations and the storage-format → base-format inference
  function exported by `textureEnums.ts` (the module itself is absent from
  the sources; it is modelled from the spec and from its exhaustive test
  suite, which lists every member and the native constant it must equal);
- the `Sampler` class of `Sampler.ts` (its configuration defaults, its
  native-call sequence, `getSampler` and `delete`), translated from the
  source;
- the `ContextConsumer` base abstraction (also absent from the sources;
  modelled from the spec: a single-resolution readiness signal whose
  initializer runs after the context is ready and at most once).
-/

/-! ## Texture enumerations

Each enumeration mirrors the members exercised by the test file
`textureEnums` tests. `value` is the member's numeric value as exported by
the library; `glConst` is the native WebGL2 API constant the member mirrors
(numeric values from the OpenGL ES 3.0 / WebGL2 specification). -/

inductive TextureMagFilter
  | linear
  | nearest
deriving DecidableEq, Repr

/-- Modelled from the spec: the numeric value of each `TextureMagFilter`
member as exported by the missing `textureEnums.ts` (the spec requires it
to be numerically identical to the native API constant). -/
def TextureMagFilter.value : TextureMagFilter → Nat
  | .linear => 9729
  | .nearest => 9728

/-- The native WebGL2 constant each `TextureMagFilter` member mirrors
(`gl.LINEAR`, `gl.NEAREST`). -/
def TextureMagFilter.glConst : TextureMagFilter → Nat
  | .linear => 0x2601
  | .nearest => 0x2600

inductive TextureMinFilter
  | linear
  | linearMipmapLinear
  | linearMipmapNearest
  | nearest
  | nearestMipmapLinear
  | nearestMipmapNearest
deriving DecidableEq, Repr

/-- Modelled from the spec: the numeric value of each `TextureMinFilter`
member as exported by the missing `textureEnums.ts`. -/
def TextureMinFilter.value : TextureMinFilter → Nat
  | .linear => 9729
  | .linearMipmapLinear => 9987
  | .linearMipmapNearest => 9985
  | .nearest => 9728
  | .nearestMipmapLinear => 9986
  | .nearestMipmapNearest => 9984

/-- The native WebGL2 constant each `TextureMinFilter` member mirrors. -/
def TextureMinFilter.glConst : TextureMinFilter → Nat
  | .linear => 0x2601
  | .linearMipmapLinear => 0x2703
  | .linearMipmapNearest => 0x2701
  | .nearest => 0x2600
  | .nearestMipmapLinear => 0x2702
  | .nearestMipmapNearest => 0x2700

inductive TextureCompareFunc
  | always
  | equal
  | greater
  | greaterOrEqual
  | less
  | lessOrEqual
  | never
  | notEqual
deriving DecidableEq, Repr

/-- Modelled from the spec: the numeric value of each `TextureCompareFunc`
member as exported by the missing `textureEnums.ts`. -/
def TextureCompareFunc.value : TextureCompareFunc → Nat
  | .always => 519
  | .equal => 514
  | .greater => 516
  | .greaterOrEqual => 518
  | .less => 513
  | .lessOrEqual => 515
  | .never => 512
  | .notEqual => 517

/-- The native WebGL2 constant each `TextureCompareFunc` member mirrors. -/
def TextureCompareFunc.glConst : TextureCompareFunc → Nat
  | .always => 0x0207
  | .equal => 0x0202
  | .greater => 0x0204
  | .greaterOrEqual => 0x0206
  | .less => 0x0201
  | .lessOrEqual => 0x0203
  | .never => 0x0200
  | .notEqual => 0x0205

inductive TextureCompareMode
  | none
  | compareRefToTexture
deriving DecidableEq, Repr

/-- Modelled from the spec: the numeric value of each `TextureCompareMode`
member as exported by the missing `textureEnums.ts`. -/
def TextureCompareMode.value : TextureCompareMode → Nat
  | .none => 0
  | .compareRefToTexture => 34894

/-- The native WebGL2 constant each `TextureCompareMode` member mirrors. -/
def TextureCompareMode.glConst : TextureCompareMode → Nat
  | .none => 0
  | .compareRefToTexture => 0x884E

inductive TextureWrap
  | clampToEdge
  | mirroredRepeat
  | repeat
deriving DecidableEq, Repr

/-- Modelled from the spec: the numeric value of each `TextureWrap` member
as exported by the missing `textureEnums.ts`. -/
def TextureWrap.value : TextureWrap → Nat
  | .clampToEdge => 33071
  | .mirroredRepeat => 33648
  | .repeat => 10497

/-- The native WebGL2 constant each `TextureWrap` member mirrors. -/
def TextureWrap.glConst : TextureWrap → Nat
  | .clampToEdge => 0x812F
  | .mirroredRepeat => 0x8370
  | .repeat => 0x2901

inductive TextureDataType
  | unsignedShort565
  | unsignedShort4444
  | unsignedShort5551
  | unsignedInt2101010Rev
  | unsignedInt10f11f11fRev
  | unsignedInt5999Rev
  | unsignedInt248
  | float32UnsignedInt248Rev
deriving DecidableEq, Repr

/-- Modelled from the spec: the numeric value of each `TextureDataType`
member as exported by the missing `textureEnums.ts`. -/
def TextureDataType.value : TextureDataType → Nat
  | .unsignedShort565 => 33635
  | .unsignedShort4444 => 32819
  | .unsignedShort5551 => 32820
  | .unsignedInt2101010Rev => 33640
  | .unsignedInt10f11f11fRev => 35899
  | .unsignedInt5999Rev => 35902
  | .unsignedInt248 => 34042
  | .float32UnsignedInt248Rev => 36269

/-- The native WebGL2 constant each `TextureDataType` member mirrors. -/
def TextureDataType.glConst : TextureDataType → Nat
  | .unsignedShort565 => 0x8363
  | .unsignedShort4444 => 0x8033
  | .unsignedShort5551 => 0x8034
  | .unsignedInt2101010Rev => 0x8368
  | .unsignedInt10f11f11fRev => 0x8C3B
  | .unsignedInt5999Rev => 0x8C3E
  | .unsignedInt248 => 0x84FA
  | .float32UnsignedInt248Rev => 0x8DAD

inductive TextureFormat
  | alpha
  | luminance
  | luminanceAlpha
  | red
  | redInteger
  | rg
  | rgInteger
  | rgb
  | rgbInteger
  | rgba
  | rgbaInteger
deriving DecidableEq, Repr

/-- Modelled from the spec: the numeric value of each `TextureFormat`
member as exported by the missing `textureEnums.ts`. -/
def TextureFormat.value : TextureFormat → Nat
  | .alpha => 6406
  | .luminance => 6409
  | .luminanceAlpha => 6410
  | .red => 6403
  | .redInteger => 36244
  | .rg => 33319
  | .rgInteger => 33320
  | .rgb => 6407
  | .rgbInteger => 36248
  | .rgba => 6408
  | .rgbaInteger => 36249

/-- The native WebGL2 constant each `TextureFormat` member mirrors. -/
def TextureFormat.glConst : TextureFormat → Nat
  | .alpha => 0x1906
  | .luminance => 0x1909
  | .luminanceAlpha => 0x190A
  | .red => 0x1903
  | .redInteger => 0x8D94
  | .rg => 0x8227
  | .rgInteger => 0x8228
  | .rgb => 0x1907
  | .rgbInteger => 0x8D98
  | .rgba => 0x1908
  | .rgbaInteger => 0x8D99

/-- The full `TextureStorageFormat` enumeration: the regular byte, float
and integer families exercised generatively by the tests, plus the
irregular tail listed in the remaining-formats test. -/
inductive TextureStorageFormat
  | r8 | rg8 | rgb8 | rgba8
  | r8snorm | rg8snorm | rgb8snorm | rgba8snorm
  | r16f | rg16f | rgb16f | rgba16f
  | r32f | rg32f | rgb32f | rgba32f
  | r8i | rg8i | rgb8i | rgba8i
  | r8ui | rg8ui | rgb8ui | rgba8ui
  | r16i | rg16i | rgb16i | rgba16i
  | r16ui | rg16ui | rgb16ui | rgba16ui
  | r32i | rg32i | rgb32i | rgba32i
  | r32ui | rg32ui | rgb32ui | rgba32ui
  | alpha | luminance | luminanceAlpha
  | rgb565 | rgba4 | rgb5a1 | rgb10a2 | rgb10a2ui
  | srgb8 | srgb8alpha8 | r11fg11fb10f | rgb9e5
deriving DecidableEq, Repr

/-- Modelled from the spec: the numeric value of each
`TextureStorageFormat` member as exported by the missing
`textureEnums.ts`. -/
def TextureStorageFormat.value : TextureStorageFormat → Nat
  | .r8 => 33321 | .rg8 => 33323 | .rgb8 => 32849 | .rgba8 => 32856
  | .r8snorm => 36756 | .rg8snorm => 36757 | .rgb8snorm => 36758 | .rgba8snorm => 36759
  | .r16f => 33325 | .rg16f => 33327 | .rgb16f => 34843 | .rgba16f => 34842
  | .r32f => 33326 | .rg32f => 33328 | .rgb32f => 34837 | .rgba32f => 34836
  | .r8i => 33329 | .rg8i => 33335 | .rgb8i => 36239 | .rgba8i => 36238
  | .r8ui => 33330 | .rg8ui => 33336 | .rgb8ui => 36221 | .rgba8ui => 36220
  | .r16i => 33331 | .rg16i => 33337 | .rgb16i => 36233 | .rgba16i => 36232
  | .r16ui => 33332 | .rg16ui => 33338 | .rgb16ui => 36215 | .rgba16ui => 36214
  | .r32i => 33333 | .rg32i => 33339 | .rgb32i => 36227 | .rgba32i => 36226
  | .r32ui => 33334 | .rg32ui => 33340 | .rgb32ui => 36209 | .rgba32ui => 36208
  | .alpha => 6406 | .luminance => 6409 | .luminanceAlpha => 6410
  | .rgb565 => 36194 | .rgba4 => 32854 | .rgb5a1 => 32855
  | .rgb10a2 => 32857 | .rgb10a2ui => 36975
  | .srgb8 => 35905 | .srgb8alpha8 => 35907
  | .r11fg11fb10f => 35898 | .rgb9e5 => 35901

/-- The native WebGL2 constant each `TextureStorageFormat` member mirrors
(`gl.R8`, `gl.RG8_SNORM`, `gl.RGBA32UI`, `gl.SRGB8_ALPHA8`, ...). -/
def TextureStorageFormat.glConst : TextureStorageFormat → Nat
  | .r8 => 0x8229 | .rg8 => 0x822B | .rgb8 => 0x8051 | .rgba8 => 0x8058
  | .r8snorm => 0x8F94 | .rg8snorm => 0x8F95 | .rgb8snorm => 0x8F96 | .rgba8snorm => 0x8F97
  | .r16f => 0x822D | .rg16f => 0x822F | .rgb16f => 0x881B | .rgba16f => 0x881A
  | .r32f => 0x822E | .rg32f => 0x8230 | .rgb32f => 0x8815 | .rgba32f => 0x8814
  | .r8i => 0x8231 | .rg8i => 0x8237 | .rgb8i => 0x8D8F | .rgba8i => 0x8D8E
  | .r8ui => 0x8232 | .rg8ui => 0x8238 | .rgb8ui => 0x8D7D | .rgba8ui => 0x8D7C
  | .r16i => 0x8233 | .rg16i => 0x8239 | .rgb16i => 0x8D89 | .rgba16i => 0x8D88
  | .r16ui => 0x8234 | .rg16ui => 0x823A | .rgb16ui => 0x8D77 | .rgba16ui => 0x8D76
  | .r32i => 0x8235 | .rg32i => 0x823B | .rgb32i => 0x8D83 | .rgba32i => 0x8D82
  | .r32ui => 0x8236 | .rg32ui => 0x823C | .rgb32ui => 0x8D71 | .rgba32ui => 0x8D70
  | .alpha => 0x1906 | .luminance => 0x1909 | .luminanceAlpha => 0x190A
  | .rgb565 => 0x8D62 | .rgba4 => 0x8056 | .rgb5a1 => 0x8057
  | .rgb10a2 => 0x8059 | .rgb10a2ui => 0x906F
  | .srgb8 => 0x8C41 | .srgb8alpha8 => 0x8C43
  | .r11fg11fb10f => 0x8C3A | .rgb9e5 => 0x8C3D

/-- Modelled from the spec: `inferFormatFromStorageFormat` of the missing
`textureEnums.ts`. Given a storage format it produces the base pixel
format: the regular families resolve via component count (with integer
formats mapping to the `*Integer` base formats), the irregular tail via an
explicit lookup. `none` would represent the "unmapped member" defect the
spec forbids. -/
def inferFormatFromStorageFormat : TextureStorageFormat → Option TextureFormat
  | .r8 | .r8snorm | .r16f | .r32f => some .red
  | .rg8 | .rg8snorm | .rg16f | .rg32f => some .rg
  | .rgb8 | .rgb8snorm | .rgb16f | .rgb32f => some .rgb
  | .rgba8 | .rgba8snorm | .rgba16f | .rgba32f => some .rgba
  | .r8i | .r8ui | .r16i | .r16ui | .r32i | .r32ui => some .redInteger
  | .rg8i | .rg8ui | .rg16i | .rg16ui | .rg32i | .rg32ui => some .rgInteger
  | .rgb8i | .rgb8ui | .rgb16i | .rgb16ui | .rgb32i | .rgb32ui => some .rgbInteger
  | .rgba8i | .rgba8ui | .rgba16i | .rgba16ui | .rgba32i | .rgba32ui => some .rgbaInteger
  | .alpha => some .alpha
  | .luminance => some .luminance
  | .luminanceAlpha => some .luminanceAlpha
  | .rgb565 | .srgb8 | .r11fg11fb10f | .rgb9e5 => some .rgb
  | .rgba4 | .rgb5a1 | .rgb10a2 | .srgb8alpha8 => some .rgba
  | .rgb10a2ui => some .rgbaInteger

/-! ## Sampler configuration (from `Sampler.ts`)

`SamplerProps` has only optional fields; absent fields take the defaults
of the constructor's destructuring pattern (`Sampler.ts` lines 84–95).
The context reference is an opaque identifier. -/

structure SamplerProps where
  context : Option Nat := none
  minFilter : Option TextureMinFilter := none
  magFilter : Option TextureMagFilter := none
  wrapS : Option TextureWrap := none
  wrapT : Option TextureWrap := none
  wrapR : Option TextureWrap := none
  minLod : Option Int := none
  maxLod : Option Int := none
  compareMode : Option TextureCompareMode := none
  compareFunc : Option TextureCompareFunc := none
deriving DecidableEq, Repr

/-- The configuration captured by the constructor after applying the
destructuring defaults of `Sampler.ts` lines 84–95. -/
structure SamplerConfig where
  minFilter : TextureMinFilter
  magFilter : TextureMagFilter
  wrapS : TextureWrap
  wrapT : TextureWrap
  wrapR : TextureWrap
  minLod : Int
  maxLod : Int
  compareMode : TextureCompareMode
  compareFunc : TextureCompareFunc
deriving DecidableEq, Repr

/-- Default application of the constructor's destructuring pattern
(`Sampler.ts` lines 84–95): each absent field takes its documented
default. -/
def resolveProps (p : SamplerProps) : SamplerConfig where
  minFilter := p.minFilter.getD .linear
  magFilter := p.magFilter.getD .linear
  wrapS := p.wrapS.getD .clampToEdge
  wrapT := p.wrapT.getD .clampToEdge
  wrapR := p.wrapR.getD .clampToEdge
  minLod := p.minLod.getD (-1000)
  maxLod := p.maxLod.getD 1000
  compareMode := p.compareMode.getD .none
  compareFunc := p.compareFunc.getD .lessOrEqual

/-! ## Native calls and the sampler parameter constants -/

/-- Sampler parameter names used by the initializer (native WebGL2
`pname` constants). -/
def TEXTURE_MIN_FILTER : Nat := 0x2801
def TEXTURE_MAG_FILTER : Nat := 0x2800
def TEXTURE_WRAP_S : Nat := 0x2802
def TEXTURE_WRAP_T : Nat := 0x2803
def TEXTURE_WRAP_R : Nat := 0x8072
def TEXTURE_MIN_LOD : Nat := 0x813A
def TEXTURE_MAX_LOD : Nat := 0x813B
def TEXTURE_COMPARE_MODE : Nat := 0x884C
def TEXTURE_COMPARE_FUNC : Nat := 0x884D

/-- A native call issued through the context. `deleteSampler` carries the
contents of the `sampler` field at the moment of the call (`none` models a
still-undefined field). -/
inductive GLCall
  | createSampler (handle : Nat)
  | samplerParameteri (handle : Nat) (pname : Nat) (value : Nat)
  | samplerParameterf (handle : Nat) (pname : Nat) (value : Int)
  | deleteSampler (handle : Option Nat)
deriving DecidableEq, Repr

/-- The exact native-call sequence of the `Sampler` initializer
(`Sampler.ts` lines 98–111): create the sampler object, then one
parameter-set call per configuration field, then store the handle. -/
def samplerInitCalls (cfg : SamplerConfig) (h : Nat) : List GLCall :=
  [ .createSampler h
  , .samplerParameteri h TEXTURE_MIN_FILTER cfg.minFilter.value
  , .samplerParameteri h TEXTURE_MAG_FILTER cfg.magFilter.value
  , .samplerParameteri h TEXTURE_WRAP_S cfg.wrapS.value
  , .samplerParameteri h TEXTURE_WRAP_T cfg.wrapT.value
  , .samplerParameteri h TEXTURE_WRAP_R cfg.wrapR.value
  , .samplerParameterf h TEXTURE_MIN_LOD cfg.minLod
  , .samplerParameterf h TEXTURE_MAX_LOD cfg.maxLod
  , .samplerParameteri h TEXTURE_COMPARE_MODE cfg.compareMode.value
  , .samplerParameteri h TEXTURE_COMPARE_FUNC cfg.compareFunc.value ]

/-! ## Readiness lifecycle

Modelled from the spec: the `ContextConsumer` base abstraction is not in
the sources; the spec describes it as a single-resolution readiness
signal whose initializer first awaits the context's own readiness, then
runs the creation calls, and resolves `ready` exactly once; awaiting
`ready` replays the cached outcome. The scheduling model is
single-threaded and cooperative, so a run is a sequence of events. -/

/-- Outcome of a single-resolution readiness signal. -/
inductive Outcome
  | success
  | failure
deriving DecidableEq, Repr

/-- An event of a resource's run: the context's readiness resolving, or a
native call issued by the resource. -/
inductive Event
  | contextResolved (o : Outcome)
  | native (c : GLCall)
deriving DecidableEq, Repr

/-- Whether an event is a native call. -/
def Event.isNative : Event → Bool
  | .native _ => true
  | .contextResolved _ => false

/-- State of one `Sampler` resource: the cached readiness outcome
(`none` = still pending), how many times the initializer body has run,
the stored `sampler` field, and the trace of events so far. -/
structure SamplerState where
  ready : Option Outcome
  initRuns : Nat
  sampler : Option Nat
  trace : List Event
deriving DecidableEq, Repr

/-- Modelled from the spec: a resource whose context has not yet resolved.
Nothing has run: no native calls, the initializer has not begun, `ready`
is pending. -/
def Sampler.constructPending : SamplerState where
  ready := none
  initRuns := 0
  sampler := none
  trace := []

/-- Modelled from the spec: constructing a `Sampler` (`Sampler.ts` lines
84–115) under a context whose readiness resolves to `ctx`. Per the spec
the initializer first awaits the context's readiness; if the context
failed, the resource's `ready` resolves to failure without any native
call; if it succeeded, the initializer body runs once — issuing exactly
the calls of `samplerInitCalls` and storing the created handle `h` — and
`ready` resolves to success. -/
def Sampler.construct (props : SamplerProps) (ctx : Outcome) (h : Nat) :
    SamplerState :=
  match ctx with
  | .failure =>
    { ready := some .failure
      initRuns := 0
      sampler := none
      trace := [.contextResolved .failure] }
  | .success =>
    { ready := some .success
      initRuns := 1
      sampler := some h
      trace := .contextResolved .success ::
        (samplerInitCalls (resolveProps props) h).map .native }

/-- Result of awaiting a promise-valued operation under cooperative
scheduling: still suspended, rejected, or resolved with a value. -/
inductive AsyncResult (α : Type)
  | pending
  | rejected
  | resolved (a : α)
deriving DecidableEq, Repr

/-- Modelled from the spec: awaiting `this.ready` replays the cached
outcome and changes nothing; a pending signal suspends the caller. -/
def awaitReady (s : SamplerState) : AsyncResult Unit × SamplerState :=
  match s.ready with
  | none => (.pending, s)
  | some .failure => (.rejected, s)
  | some .success => (.resolved (), s)

/-- `n` successive awaits of the readiness signal, collecting the
observed results. -/
def awaitReadyN : SamplerState → Nat → List (AsyncResult Unit) × SamplerState
  | s, 0 => ([], s)
  | s, n + 1 =>
    let (r, s₁) := awaitReady s
    let (rs, s₂) := awaitReadyN s₁ n
    (r :: rs, s₂)

/-- `Sampler.getSampler` (`Sampler.ts` lines 123–127): awaits `ready`,
then returns the stored `sampler` field. A pending signal suspends; a
failed signal rethrows; nothing in the state changes. -/
def Sampler.getSampler (s : SamplerState) :
    AsyncResult (Option Nat) × SamplerState :=
  match s.ready with
  | none => (.pending, s)
  | some .failure => (.rejected, s)
  | some .success => (.resolved s.sampler, s)

/-- `Sampler.delete` (`Sampler.ts` lines 133–139): awaits `ready`, then
issues `gl.deleteSampler` on the current contents of the `sampler` field.
A pending signal suspends without any call; a failed signal rethrows
without any call. The `sampler` field and `ready` are left untouched. -/
def Sampler.delete (s : SamplerState) : AsyncResult Unit × SamplerState :=
  match s.ready with
  | none => (.pending, s)
  | some .failure => (.rejected, s)
  | some .success =>
    (.resolved (),
      { s with trace := s.trace ++ [.native (.deleteSampler s.sampler)] })

/-! ## Helper lemmas -/

/-- Awaiting the readiness signal never changes the state. -/
theorem awaitReady_snd (s : SamplerState) : (awaitReady s).2 = s := by
  rcases hr : s.ready with _ | o
  · simp [awaitReady, hr]
  · cases o <;> simp [awaitReady, hr]

/-- `n` awaits replay the one cached observation `n` times and leave the
state untouched. -/
theorem awaitReadyN_eq (s : SamplerState) (n : Nat) :
    awaitReadyN s n = (List.replicate n (awaitReady s).1, s) := by
  induction n with
  | zero => rfl
  | succ n ih =>
    simp [awaitReadyN, awaitReady_snd, ih, List.replicate_succ]

/-! ## Claims -/

/-- C1: the format inference function is total over the storage-format
enumeration — for every member of `TextureStorageFormat`,
`inferFormatFromStorageFormat` returns a defined, non-null base pixel
format; no member falls through to an unknown outcome. -/
theorem inferFormatFromStorageFormat_total :
    ∀ s : TextureStorageFormat,
      (inferFormatFromStorageFormat s).isSome = true := by
  intro s
  cases s <;> rfl

/-- C2: constructing a `Sampler` with no explicit configuration yields,
once readiness resolves, a native sampler parameterized with min filter
linear, mag filter linear, clamp-to-edge wrapping on s, t and r, min LOD
-1000, max LOD 1000, compare mode none and compare function
less-or-equal — exactly one parameter-set call per field. -/
theorem sampler_default_initialization (h : Nat) :
    (Sampler.construct {} .success h).ready = some .success ∧
    (Sampler.construct {} .success h).trace =
      .contextResolved .success ::
        ([ .createSampler h
         , .samplerParameteri h TEXTURE_MIN_FILTER TextureMinFilter.linear.value
         , .samplerParameteri h TEXTURE_MAG_FILTER TextureMagFilter.linear.value
         , .samplerParameteri h TEXTURE_WRAP_S TextureWrap.clampToEdge.value
         , .samplerParameteri h TEXTURE_WRAP_T TextureWrap.clampToEdge.value
         , .samplerParameteri h TEXTURE_WRAP_R TextureWrap.clampToEdge.value
         , .samplerParameterf h TEXTURE_MIN_LOD (-1000)
         , .samplerParameterf h TEXTURE_MAX_LOD 1000
         , .samplerParameteri h TEXTURE_COMPARE_MODE TextureCompareMode.none.value
         , .samplerParameteri h TEXTURE_COMPARE_FUNC TextureCompareFunc.lessOrEqual.value
         ] : List GLCall).map .native :=
  ⟨rfl, rfl⟩

/-- C3: the initializer body executes at most once per resource instance,
and every await of the readiness signal — any number of them, before or
after resolution — observes the identical cached outcome and leaves the
state untouched. -/
theorem ready_idempotent_init_once
    (props : SamplerProps) (ctx : Outcome) (h n : Nat) :
    awaitReadyN (Sampler.construct props ctx h) n =
      (List.replicate n (awaitReady (Sampler.construct props ctx h)).1,
        Sampler.construct props ctx h) ∧
    (Sampler.construct props ctx h).initRuns ≤ 1 ∧
    awaitReadyN Sampler.constructPending n =
      (List.replicate n AsyncResult.pending, Sampler.constructPending) ∧
    Sampler.constructPending.initRuns ≤ 1 := by
  refine ⟨awaitReadyN_eq _ n, ?_, awaitReadyN_eq _ n, by decide⟩
  cases ctx <;> simp [Sampler.construct]

/-- C4: context readiness strictly happens-before the resource's
initialization — while the context is pending nothing of the initializer
has run and no native call was issued, and in any settled run the trace
begins with the context's resolution, every native call coming strictly
after it. -/
theorem context_ready_before_initialization
    (props : SamplerProps) (ctx : Outcome) (h : Nat) :
    Sampler.constructPending.trace = [] ∧
    Sampler.constructPending.initRuns = 0 ∧
    ∃ rest, (Sampler.construct props ctx h).trace =
        .contextResolved ctx :: rest ∧
      rest.all Event.isNative = true := by
  refine ⟨rfl, rfl, ?_⟩
  cases ctx
  · exact ⟨_, rfl, rfl⟩
  · exact ⟨[], rfl, rfl⟩

/-- C5: if the context's readiness resolves to failure, the resource's
readiness also resolves to failure, no native call whatsoever is issued,
and `getSampler`/`delete` observe the same failure without attempting a
native call. -/
theorem context_failure_propagates (props : SamplerProps) (h : Nat) :
    (Sampler.construct props .failure h).ready = some .failure ∧
    (Sampler.construct props .failure h).trace.filter Event.isNative = [] ∧
    Sampler.getSampler (Sampler.construct props .failure h) =
      (.rejected, Sampler.construct props .failure h) ∧
    Sampler.delete (Sampler.construct props .failure h) =
      (.rejected, Sampler.construct props .failure h) :=
  ⟨rfl, rfl, rfl, rfl⟩

/-- C6: `getSampler` first awaits readiness (suspending while pending,
rethrowing on failure), then returns the stored native handle; it never
modifies the resource's state and every successful call returns the same
handle. -/
theorem getSampler_awaits_and_repeats (props : SamplerProps) (h : Nat) :
    (∀ s : SamplerState, (Sampler.getSampler s).2 = s) ∧
    Sampler.getSampler Sampler.constructPending =
      (.pending, Sampler.constructPending) ∧
    Sampler.getSampler (Sampler.construct props .success h) =
      (.resolved (some h), Sampler.construct props .success h) ∧
    Sampler.getSampler
        (Sampler.getSampler (Sampler.construct props .success h)).2 =
      (.resolved (some h), Sampler.construct props .success h) := by
  refine ⟨?_, rfl, rfl, rfl⟩
  intro s
  rcases hr : s.ready with _ | o
  · simp [Sampler.getSampler, hr]
  · cases o <;> simp [Sampler.getSampler, hr]

/-- C7: `delete` always awaits readiness before issuing the native delete
call — on a still-pending resource it suspends without any call, and on a
settled resource the `deleteSampler` call lands strictly after the whole
initialization trace, even when `delete` is the first operation ever
called. -/
theorem delete_awaits_ready (props : SamplerProps) (h : Nat) :
    Sampler.delete Sampler.constructPending =
      (.pending, Sampler.constructPending) ∧
    (Sampler.delete (Sampler.construct props .success h)).2.trace =
      (Sampler.construct props .success h).trace ++
        [.native (.deleteSampler (some h))] :=
  ⟨rfl, rfl⟩

/-- C9: `delete` neither clears the stored handle nor changes the
readiness outcome — after a delete, `getSampler` still resolves with the
same (now-deleted) handle, and a second `delete` issues the native delete
on that same handle again. -/
theorem delete_preserves_resource_state (props : SamplerProps) (h : Nat) :
    (Sampler.delete (Sampler.construct props .success h)).2.sampler =
      some h ∧
    (Sampler.delete (Sampler.construct props .success h)).2.ready =
      some .success ∧
    (Sampler.getSampler
        (Sampler.delete (Sampler.construct props .success h)).2).1 =
      .resolved (some h) ∧
    (Sampler.delete
        (Sampler.delete (Sampler.construct props .success h)).2).2.trace =
      (Sampler.construct props .success h).trace ++
        [.native (.deleteSampler (some h)),
         .native (.deleteSampler (some h))] := by
  refine ⟨rfl, rfl, rfl, ?_⟩
  simp [Sampler.delete, Sampler.construct]

/-- C10: the constructor accepts an entirely absent properties object —
the empty record — in which case all nine configuration fields take their
documented defaults and the context reference is absent. -/
theorem constructor_accepts_empty_props :
    resolveProps {} =
      { minFilter := .linear
        magFilter := .linear
        wrapS := .clampToEdge
        wrapT := .clampToEdge
        wrapR := .clampToEdge
        minLod := -1000
        maxLod := 1000
        compareMode := .none
        compareFunc := .lessOrEqual } ∧
    ({} : SamplerProps).context = none :=
  ⟨rfl, rfl⟩

/-- C8: every member of every exposed enumeration has a numeric value
equal to the native WebGL2 constant it mirrors. -/
theorem enum_values_match_gl_constants :
    (∀ m : TextureMagFilter, m.value = m.glConst) ∧
    (∀ m : TextureMinFilter, m.value = m.glConst) ∧
    (∀ m : TextureWrap, m.value = m.glConst) ∧
    (∀ m : TextureCompareMode, m.value = m.glConst) ∧
    (∀ m : TextureCompareFunc, m.value = m.glConst) ∧
    (∀ m : TextureDataType, m.value = m.glConst) ∧
    (∀ m : TextureFormat, m.value = m.glConst) ∧
    (∀ m : TextureStorageFormat, m.value = m.glConst) := by
  refine ⟨?_, ?_, ?_, ?_, ?_, ?_, ?_, ?_⟩ <;> intro m <;> cases m <;> rfl
